import Mathlib

/-!
Shallow embedding of the moex-trading-bot core (state manager, risk manager,
trade executor, retry helper) and theorems checking the specification's
claims against it.

Python conventions used throughout the embedding:
* a `dict` is an insertion-ordered association list (`Dict`), with
  assignment updating an existing key in place and appending a new key;
* Python floats are modelled as rationals (`ℚ`), ints as `ℤ`/`ℕ`;
* code that can raise returns `Except PyExc _`, where `PyExc` covers the
  exception types the embedded code can actually raise.
-/

namespace MoexBot

/-- Exceptions raised by the embedded code paths. -/
inductive PyExc where
  | tradeError (msg : String)
  | attributeError (msg : String)
  | runtimeError (msg : String)
  | zeroDivisionError
deriving DecidableEq, Repr

/-- A Python `dict` with string keys: insertion-ordered association list. -/
abbrev Dict (α : Type) := List (String × α)

/-- `d.get(k)` / `d[k]` lookup. -/
def dictFind? {α : Type} (d : Dict α) (k : String) : Option α :=
  match d.find? (fun p => p.1 == k) with
  | some p => some p.2
  | none => none

/-- Python dict assignment `d[k] = v`: replaces in place if the key exists
(keeping its insertion position), otherwise appends. -/
def dictSet {α : Type} (d : Dict α) (k : String) (v : α) : Dict α :=
  match d with
  | [] => [(k, v)]
  | (k', v') :: rest => if k' == k then (k, v) :: rest else (k', v') :: dictSet rest k v

theorem dictFind?_dictSet_self {α : Type} (d : Dict α) (k : String) (v : α) :
    dictFind? (dictSet d k v) k = some v := by
  induction d with
  | nil => simp [dictSet, dictFind?, List.find?]
  | cons hd tl ih =>
    by_cases h : hd.1 = k
    · simp [dictSet, h, dictFind?, List.find?]
    · simpa [dictSet, h, dictFind?, List.find?] using ih

/-! ## src/scr/core/state_manager.py -/

namespace StateMgr

/-- `PositionStatus` enum from state_manager.py. -/
inductive PositionStatus where
  | OPEN
  | CLOSED
  | PENDING
deriving DecidableEq, Repr

/-- `OrderType` enum from state_manager.py. -/
inductive OrderType where
  | BUY
  | SELL
  | STOP_LOSS
  | TAKE_PROFIT
deriving DecidableEq, Repr

/-- `Order` dataclass from state_manager.py (timestamps as abstract naturals). -/
structure Order where
  order_id : String
  ticker : String
  order_type : OrderType
  price : ℚ
  volume : ℤ
  timestamp : ℕ
  executed : Bool := false
deriving DecidableEq, Repr

/-- `Position` dataclass from state_manager.py. -/
structure Position where
  ticker : String
  entry_price : ℚ
  current_price : ℚ
  volume : ℤ
  status : PositionStatus
  open_time : ℕ
  close_time : Option ℕ := none
  pnl : ℚ := 0
  orders : List Order := []
deriving DecidableEq, Repr

/-- `StateManager._update_positions`: averaging on BUY into an OPEN position,
creation of a fresh OPEN position otherwise on BUY, closing on SELL against
an OPEN position, no effect otherwise. -/
def update_positions (positions : Dict Position) (order : Order) : Dict Position :=
  let position? := dictFind? positions order.ticker
  match order.order_type with
  | OrderType.BUY =>
    match position? with
    | some position =>
      if position.status = PositionStatus.OPEN then
        let total_volume := position.volume + order.volume
        dictSet positions order.ticker
          { position with
            entry_price :=
              (position.entry_price * position.volume + order.price * order.volume) /
                (total_volume : ℚ),
            volume := total_volume }
      else
        dictSet positions order.ticker
          { ticker := order.ticker
            entry_price := order.price
            current_price := order.price
            volume := order.volume
            status := PositionStatus.OPEN
            open_time := order.timestamp }
    | none =>
      dictSet positions order.ticker
        { ticker := order.ticker
          entry_price := order.price
          current_price := order.price
          volume := order.volume
          status := PositionStatus.OPEN
          open_time := order.timestamp }
  | OrderType.SELL =>
    match position? with
    | some position =>
      if position.status = PositionStatus.OPEN then
        dictSet positions order.ticker
          { position with
            status := PositionStatus.CLOSED
            close_time := some order.timestamp
            pnl := (order.price - position.entry_price) * order.volume }
      else positions
    | none => positions
  | _ => positions

/-- `StateManager.update`: folds the executed BUY/SELL orders of the execution
results into the positions dict; non-executed orders and other order types are
skipped. -/
def update (positions : Dict Position) (execution_results : List Order) : Dict Position :=
  execution_results.foldl
    (fun ps order =>
      if !order.executed then ps
      else if order.order_type = OrderType.BUY ∨ order.order_type = OrderType.SELL then
        update_positions ps order
      else ps)
    positions

/-- The concrete executed BUY order used to exhibit double-application. -/
def buyX10at100 : Order :=
  { order_id := "ord1", ticker := "X", order_type := OrderType.BUY,
    price := 100, volume := 10, timestamp := 0, executed := true }

/-- Second fill of the spec scenario: BUY 10@110 on "X". -/
def buyX10at110 : Order :=
  { order_id := "ord2", ticker := "X", order_type := OrderType.BUY,
    price := 110, volume := 10, timestamp := 1, executed := true }

/-- Closing fill of the spec scenario: SELL 20@120 on "X". -/
def sellX20at120 : Order :=
  { order_id := "ord3", ticker := "X", order_type := OrderType.SELL,
    price := 120, volume := 20, timestamp := 2, executed := true }

/-- A CLOSED position on "X", used as a concrete non-OPEN ledger entry. -/
def closedPosX : Position :=
  { ticker := "X", entry_price := 100, current_price := 100, volume := 10,
    status := PositionStatus.CLOSED, open_time := 0, close_time := some 1 }

/-- Sum of `price × volume` over a list of fills (numerator of the weighted
average the spec describes). -/
def wsum (fills : List Order) : ℚ :=
  (fills.map (fun o => o.price * (o.volume : ℚ))).sum

/-- Sum of fill volumes. -/
def vsum (fills : List Order) : ℤ :=
  (fills.map (fun o => o.volume)).sum

theorem vsum_nonneg (fills : List Order) (h : ∀ o ∈ fills, 0 < o.volume) :
    0 ≤ vsum fills := by
  refine List.sum_nonneg ?_
  intro x hx
  obtain ⟨o, ho, rfl⟩ := List.mem_map.mp hx
  exact le_of_lt (h o ho)

theorem wsum_cons (o : Order) (rest : List Order) :
    wsum (o :: rest) = o.price * (o.volume : ℚ) + wsum rest := by
  simp [wsum]

theorem vsum_cons (o : Order) (rest : List Order) :
    vsum (o :: rest) = o.volume + vsum rest := by
  simp [vsum]

/-- Averaging invariant of `_update_positions` over a run of executed BUY
fills on ticker `t`: starting from an OPEN position with positive volume, the
final position is still OPEN, its volume grows by the sum of fill volumes, and
`entry_price × volume` grows by the sum of `price × volume`. -/
theorem update_buys_invariant (t : String) (fills : List Order)
    (hall : ∀ o ∈ fills,
      o.ticker = t ∧ o.order_type = OrderType.BUY ∧ o.executed = true ∧ 0 < o.volume)
    (positions : Dict Position) (p : Position)
    (hp : dictFind? positions t = some p)
    (hst : p.status = PositionStatus.OPEN)
    (hv : 0 < p.volume) :
    ∃ q : Position,
      dictFind? (update positions fills) t = some q ∧
      q.status = PositionStatus.OPEN ∧
      q.volume = p.volume + vsum fills ∧
      q.entry_price * (q.volume : ℚ) = p.entry_price * (p.volume : ℚ) + wsum fills := by
  induction fills generalizing positions p with
  | nil =>
    exact ⟨p, hp, hst, by simp [vsum, update], by simp [wsum, update]⟩
  | cons o rest ih =>
    obtain ⟨hticker, htype, hexec, hvol⟩ := hall o (List.mem_cons_self o rest)
    have hstep : update positions (o :: rest) = update (update_positions positions o) rest := by
      simp [update, hexec, htype]
    have htot : (0 : ℤ) < p.volume + o.volume := by omega
    have hup : update_positions positions o = dictSet positions t
        { p with
          entry_price :=
            (p.entry_price * (p.volume : ℚ) + o.price * (o.volume : ℚ)) /
              ((p.volume + o.volume : ℤ) : ℚ),
          volume := p.volume + o.volume } := by
      simp [update_positions, htype, hticker, hp, hst]
    obtain ⟨q, hq, hqst, hqvol, hqent⟩ :=
      ih (fun x hx => hall x (List.mem_cons_of_mem o hx))
        (dictSet positions t
          { p with
            entry_price :=
              (p.entry_price * (p.volume : ℚ) + o.price * (o.volume : ℚ)) /
                ((p.volume + o.volume : ℤ) : ℚ),
            volume := p.volume + o.volume })
        { p with
          entry_price :=
            (p.entry_price * (p.volume : ℚ) + o.price * (o.volume : ℚ)) /
              ((p.volume + o.volume : ℤ) : ℚ),
          volume := p.volume + o.volume }
        (dictFind?_dictSet_self ..) hst htot
    have hcast : (((p.volume + o.volume : ℤ)) : ℚ) ≠ 0 := by
      exact_mod_cast ne_of_gt htot
    simp only at hqvol hqent
    rw [div_mul_cancel₀ _ hcast] at hqent
    refine ⟨q, by rw [hstep, hup]; exact hq, hqst, ?_, ?_⟩
    · rw [hqvol, vsum_cons]; ring
    · rw [hqent, wsum_cons]; ring

end StateMgr

end MoexBot

namespace MoexBot.StateMgr

/-- Claim C5: from an empty ledger, a nonempty run of executed BUY fills on one
ticker yields an OPEN position whose volume is the sum of the fill volumes and
whose entry price is the volume-weighted average of the fill prices; and the
spec's concrete scenario holds: BUY 10@100 then BUY 10@110 on "X" gives
entry 105, volume 20, OPEN, and the subsequent SELL 20@120 closes the position
with realized pnl 300. -/
theorem update_weighted_average_of_buys (t : String) (fills : List Order)
    (hne : fills ≠ [])
    (hall : ∀ o ∈ fills,
      o.ticker = t ∧ o.order_type = OrderType.BUY ∧ o.executed = true ∧ 0 < o.volume) :
    (∃ q : Position,
      dictFind? (update [] fills) t = some q ∧
      q.status = PositionStatus.OPEN ∧
      q.volume = vsum fills ∧
      q.entry_price = wsum fills / ((vsum fills : ℤ) : ℚ)) ∧
    (∃ q : Position,
      dictFind? (update [] [buyX10at100, buyX10at110]) "X" = some q ∧
      q.entry_price = 105 ∧ q.volume = 20 ∧ q.status = PositionStatus.OPEN) ∧
    (∃ q : Position,
      dictFind? (update [] [buyX10at100, buyX10at110, sellX20at120]) "X" = some q ∧
      q.status = PositionStatus.CLOSED ∧ q.pnl = 300) := by
  refine ⟨?_, ?_, ?_⟩
  · obtain ⟨f, rest, rfl⟩ := List.exists_cons_of_ne_nil hne
    obtain ⟨hticker, htype, hexec, hvol⟩ := hall f (List.mem_cons_self f rest)
    have hstep : update [] (f :: rest) = update (update_positions [] f) rest := by
      simp [update, hexec, htype]
    have hup : update_positions [] f = dictSet [] t
        { ticker := t, entry_price := f.price, current_price := f.price,
          volume := f.volume, status := PositionStatus.OPEN,
          open_time := f.timestamp } := by
      simp [update_positions, htype, dictFind?, hticker]
    obtain ⟨q, hq, hqst, hqvol, hqent⟩ :=
      update_buys_invariant t rest (fun x hx => hall x (List.mem_cons_of_mem f hx))
        (dictSet []  t
          { ticker := t, entry_price := f.price, current_price := f.price,
            volume := f.volume, status := PositionStatus.OPEN,
            open_time := f.timestamp })
        { ticker := t, entry_price := f.price, current_price := f.price,
          volume := f.volume, status := PositionStatus.OPEN,
          open_time := f.timestamp }
        (dictFind?_dictSet_self ..) rfl hvol
    simp only at hqvol hqent
    have hv : q.volume = vsum (f :: rest) := by rw [hqvol, vsum_cons]
    have hvpos : (0 : ℤ) < vsum (f :: rest) := by
      have h0 := vsum_nonneg rest (fun x hx => (hall x (List.mem_cons_of_mem f hx)).2.2.2)
      rw [vsum_cons]
      omega
    have hvq : ((vsum (f :: rest) : ℤ) : ℚ) ≠ 0 := by exact_mod_cast ne_of_gt hvpos
    refine ⟨q, by rw [hstep, hup]; exact hq, hqst, hv, ?_⟩
    rw [eq_div_iff hvq, ← hv, hqent, wsum_cons]
  · refine ⟨{ ticker := "X", entry_price := 105, current_price := 100, volume := 20,
              status := PositionStatus.OPEN, open_time := 0 }, ?_, rfl, rfl, rfl⟩
    norm_num [update, update_positions, dictFind?, dictSet, buyX10at100, buyX10at110]
  · refine ⟨{ ticker := "X", entry_price := 105, current_price := 100, volume := 20,
              status := PositionStatus.CLOSED, open_time := 0, close_time := some 2,
              pnl := 300 }, ?_, rfl, rfl⟩
    norm_num [update, update_positions, dictFind?, dictSet,
      buyX10at100, buyX10at110, sellX20at120]

/-- Witness for C5 at the concrete input fills = [BUY 10@100 on "X"]. -/
theorem update_weighted_average_of_buys_witness :
    (([buyX10at100] : List Order) ≠ [] ∧
      ∀ o ∈ [buyX10at100],
        o.ticker = "X" ∧ o.order_type = OrderType.BUY ∧ o.executed = true ∧ 0 < o.volume) ∧
    (∃ q : Position,
      dictFind? (update [] [buyX10at100]) "X" = some q ∧
      q.status = PositionStatus.OPEN ∧
      q.volume = vsum [buyX10at100] ∧
      q.entry_price = wsum [buyX10at100] / ((vsum [buyX10at100] : ℤ) : ℚ)) := by
  have h1 : ([buyX10at100] : List Order) ≠ [] := by simp
  have h2 : ∀ o ∈ [buyX10at100],
      o.ticker = "X" ∧ o.order_type = OrderType.BUY ∧ o.executed = true ∧ 0 < o.volume := by
    intro o ho
    simp only [List.mem_singleton] at ho
    subst ho
    exact ⟨rfl, rfl, rfl, by decide⟩
  exact ⟨⟨h1, h2⟩, (update_weighted_average_of_buys "X" [buyX10at100] h1 h2).1⟩

/-- Claim C10: an executed SELL order whose ticker has no OPEN position in the
ledger (no entry at all, or a non-OPEN one) leaves the positions dict
completely unchanged — no short position is created. -/
theorem update_sell_without_open_position_unchanged
    (positions : Dict Position) (o : Order)
    (hsell : o.order_type = OrderType.SELL) (hexec : o.executed = true)
    (hno : ∀ p, dictFind? positions o.ticker = some p → p.status ≠ PositionStatus.OPEN) :
    update positions [o] = positions := by
  have : update positions [o] = update_positions positions o := by
    simp [update, hexec, hsell]
  rw [this]
  unfold update_positions
  rw [hsell]
  cases hfind : dictFind? positions o.ticker with
  | none => simp
  | some p => simp [hno p hfind]

/-- Witness for C10: SELL 20@120 against a ledger whose only "X" entry is
CLOSED leaves the ledger unchanged. -/
theorem update_sell_without_open_position_unchanged_witness :
    update [("X", closedPosX)] [sellX20at120] = [("X", closedPosX)] := by
  refine update_sell_without_open_position_unchanged _ _ rfl rfl ?_
  intro p hp
  have hp' : p = closedPosX := by
    simpa [dictFind?, sellX20at120, List.find?] using hp.symm
  subst hp'
  decide

end MoexBot.StateMgr


namespace MoexBot.StateMgr

/-- Claim C1: applying `StateManager.update` twice with the same executed order
is NOT idempotent — the code has no order-id guard, so a resubmitted BUY report
is averaged into the open position again and its volume is double-counted:
one application of BUY 10@100 on an empty ledger gives volume 10, a second
application of the very same order gives volume 20. -/
theorem update_double_application_double_counts :
    update (update [] [buyX10at100]) [buyX10at100] ≠ update [] [buyX10at100] ∧
    (dictFind? (update [] [buyX10at100]) "X").map Position.volume = some 10 ∧
    (dictFind? (update (update [] [buyX10at100]) [buyX10at100]) "X").map Position.volume
      = some 20 := by
  have h10 : (dictFind? (update [] [buyX10at100]) "X").map Position.volume = some 10 := rfl
  have h20 :
      (dictFind? (update (update [] [buyX10at100]) [buyX10at100]) "X").map Position.volume
        = some 20 := rfl
  refine ⟨fun h => ?_, h10, h20⟩
  rw [h, h10] at h20
  exact absurd h20 (by decide)

end MoexBot.StateMgr

/-! ## src/scr/managers/risk_manager.py -/

namespace MoexBot.RiskMgr

/-- `RiskLevel` enum from risk_manager.py. -/
inductive RiskLevel where
  | LOW
  | MODERATE
  | HIGH
  | EXTREME
deriving DecidableEq, Repr

/-- The configuration keys `RiskManager` reads, with the `config.get` defaults
used in risk_manager.py. -/
structure RMConfig where
  max_active_positions : ℕ := 5
  max_leverage : ℚ := 3
  stop_loss_required : Bool := true
  max_loss_pct : ℚ := 0.05
deriving Repr

/-- One entry of the `current_positions` dict passed to `validate_signal`:
`LeverageController.validate` reads `p['volume']` and `p['price']`. -/
structure PosEntry where
  volume : ℤ
  price : ℚ
deriving DecidableEq, Repr

/-- The signal dict fields read by `validate_signal` / `_validate_stop_loss`:
`action`, `price`, optional `stop_loss`, and `capital` (default 1 via
`signal.get('capital', 1)`). -/
structure Signal where
  action : String
  price : ℚ
  stop_loss : Option ℚ := none
  capital : Option ℚ := none
deriving Repr

/-- `LeverageController.validate`: total exposure over capital compared to the
max leverage. Python raises `ZeroDivisionError` when `capital == 0`; a negative
capital divides fine and yields a negative leverage. -/
def leverage_validate (max_leverage : ℚ) (positions : Dict PosEntry) (capital : ℚ) :
    Except PyExc Bool :=
  let total_exposure := (positions.map (fun p => |(p.2.volume : ℚ) * p.2.price|)).sum
  if capital = 0 then Except.error PyExc.zeroDivisionError
  else
    let leverage := total_exposure / capital
    if leverage > max_leverage then Except.ok false else Except.ok true

/-- `RiskManager._validate_stop_loss`. -/
def validate_stop_loss (cfg : RMConfig) (signal : Signal) : Bool :=
  match signal.stop_loss with
  | none => if cfg.stop_loss_required then false else true
  | some stop_loss =>
    let price := signal.price
    if (signal.action = "buy" ∧ stop_loss ≥ price) ∨
       (signal.action = "sell" ∧ stop_loss ≤ price) then false
    else
      let loss_pct := |price - stop_loss| / price
      if loss_pct > cfg.max_loss_pct then false
      else true

/-- `RiskManager.validate_signal`: max-positions check, then leverage check
(which can raise `ZeroDivisionError`), then stop-loss check. -/
def validate_signal (cfg : RMConfig) (signal : Signal) (current_positions : Dict PosEntry) :
    Except PyExc Bool :=
  if current_positions.length ≥ cfg.max_active_positions then Except.ok false
  else
    match leverage_validate cfg.max_leverage current_positions (signal.capital.getD 1) with
    | Except.error e => Except.error e
    | Except.ok ok =>
      if !ok then Except.ok false
      else Except.ok (validate_stop_loss cfg signal)

/-- `RiskManager.update_risk_level`'s risk score. -/
def risk_score (drawdown volatility : ℚ) : ℚ :=
  0.4 * drawdown + 0.6 * volatility

/-- `RiskManager.update_risk_level` (the unused `portfolio_value` parameter of
the Python method is kept): thresholds 0.02 / 0.05 / 0.1 on the risk score. -/
def update_risk_level (portfolio_value drawdown volatility : ℚ) : RiskLevel :=
  if risk_score drawdown volatility < 0.02 then RiskLevel.LOW
  else if risk_score drawdown volatility < 0.05 then RiskLevel.MODERATE
  else if risk_score drawdown volatility < 0.1 then RiskLevel.HIGH
  else RiskLevel.EXTREME

/-- Signal with zero capital, used as the divide-by-zero input. -/
def zeroCapitalSignal : Signal :=
  { action := "buy", price := 100, stop_loss := some 97, capital := some 0 }

/-- Signal with negative capital and a well-formed stop loss. -/
def negCapitalSignal : Signal :=
  { action := "buy", price := 100, stop_loss := some 97, capital := some (-1000) }

end MoexBot.RiskMgr

namespace MoexBot.RiskMgr

/-- Claim C2: `validate_signal` does NOT reject zero/negative-capital signals.
With no current positions and capital 0 the leverage check divides by zero and
the code raises `ZeroDivisionError` instead of returning false; with capital
−1000 and one open position the leverage is negative, passes the `> max`
check, and the signal is accepted. -/
theorem validate_signal_zero_capital_divides_by_zero :
    validate_signal {} zeroCapitalSignal [] = Except.error PyExc.zeroDivisionError ∧
    validate_signal {} negCapitalSignal [("SBER", { volume := 1, price := 100 })]
      = Except.ok true := by
  constructor
  · norm_num [validate_signal, leverage_validate, zeroCapitalSignal]
  · norm_num [validate_signal, leverage_validate, validate_stop_loss, negCapitalSignal,
      RMConfig.max_active_positions, RMConfig.max_leverage, RMConfig.max_loss_pct]
    decide

/-- Claim C7: `_validate_stop_loss` rejects a buy signal whose stop loss is at
or above the price and a sell signal whose stop loss is at or below the price;
in particular a stop loss exactly equal to the price is rejected for both. -/
theorem validate_stop_loss_wrong_side_rejected (cfg : RMConfig) (signal : Signal)
    (sl : ℚ) (hsl : signal.stop_loss = some sl)
    (hside : (signal.action = "buy" ∧ signal.price ≤ sl) ∨
             (signal.action = "sell" ∧ sl ≤ signal.price)) :
    validate_stop_loss cfg signal = false := by
  unfold validate_stop_loss
  rw [hsl]
  have : (signal.action = "buy" ∧ sl ≥ signal.price) ∨
      (signal.action = "sell" ∧ sl ≤ signal.price) := by
    rcases hside with ⟨ha, hp⟩ | ⟨ha, hp⟩
    · exact Or.inl ⟨ha, hp⟩
    · exact Or.inr ⟨ha, hp⟩
  simp [this]

/-- Witness for C7 at stop_loss = price for both actions. -/
theorem validate_stop_loss_wrong_side_rejected_witness :
    validate_stop_loss {} { action := "buy", price := 100, stop_loss := some 100 } = false ∧
    validate_stop_loss {} { action := "sell", price := 100, stop_loss := some 100 } = false :=
  ⟨validate_stop_loss_wrong_side_rejected {} _ 100 rfl (Or.inl ⟨rfl, le_refl _⟩),
   validate_stop_loss_wrong_side_rejected {} _ 100 rfl (Or.inr ⟨rfl, le_refl _⟩)⟩

/-- Claim C9: the risk score is `0.4·drawdown + 0.6·volatility`, the level
thresholds are `< 0.02 → LOW`, `< 0.05 → MODERATE`, `< 0.1 → HIGH`, otherwise
EXTREME, and the spec scenario holds: drawdown 0.01 with volatility 0.04 gives
score 0.028 and level MODERATE. -/
theorem update_risk_level_thresholds (portfolio_value drawdown volatility : ℚ) :
    risk_score drawdown volatility = 0.4 * drawdown + 0.6 * volatility ∧
    (risk_score drawdown volatility < 0.02 →
      update_risk_level portfolio_value drawdown volatility = RiskLevel.LOW) ∧
    (0.02 ≤ risk_score drawdown volatility → risk_score drawdown volatility < 0.05 →
      update_risk_level portfolio_value drawdown volatility = RiskLevel.MODERATE) ∧
    (0.05 ≤ risk_score drawdown volatility → risk_score drawdown volatility < 0.1 →
      update_risk_level portfolio_value drawdown volatility = RiskLevel.HIGH) ∧
    (0.1 ≤ risk_score drawdown volatility →
      update_risk_level portfolio_value drawdown volatility = RiskLevel.EXTREME) ∧
    risk_score 0.01 0.04 = 0.028 ∧
    update_risk_level portfolio_value 0.01 0.04 = RiskLevel.MODERATE := by
  refine ⟨rfl, ?_, ?_, ?_, ?_, by norm_num [risk_score], ?_⟩
  · intro h1
    simp [update_risk_level, h1]
  · intro h1 h2
    unfold update_risk_level
    rw [if_neg (by linarith), if_pos h2]
  · intro h1 h2
    unfold update_risk_level
    rw [if_neg (by linarith), if_neg (by linarith), if_pos h2]
  · intro h1
    unfold update_risk_level
    rw [if_neg (by linarith), if_neg (by linarith), if_neg (by linarith)]
  · have hs : risk_score 0.01 0.04 = 0.028 := by norm_num [risk_score]
    unfold update_risk_level
    rw [hs]
    norm_num

/-- Witness for C9: the threshold implications applied at concrete scores. -/
theorem update_risk_level_thresholds_witness :
    update_risk_level 1 0.01 0 = RiskLevel.LOW ∧
    update_risk_level 1 0.01 0.04 = RiskLevel.MODERATE ∧
    update_risk_level 1 0.1 0.04 = RiskLevel.HIGH ∧
    update_risk_level 1 0.1 0.2 = RiskLevel.EXTREME :=
  ⟨(update_risk_level_thresholds 1 0.01 0).2.1 (by norm_num [risk_score]),
   (update_risk_level_thresholds 1 0.01 0.04).2.2.1
     (by norm_num [risk_score]) (by norm_num [risk_score]),
   (update_risk_level_thresholds 1 0.1 0.04).2.2.2.1
     (by norm_num [risk_score]) (by norm_num [risk_score]),
   (update_risk_level_thresholds 1 0.1 0.2).2.2.2.2.1 (by norm_num [risk_score])⟩

end MoexBot.RiskMgr

/-! ## src/scr/trading/trade_executor.py and src/scr/trading/__init__.py -/

namespace MoexBot.TradeExec

/-- Modelled from the spec: the `OrderStatus` enum is referenced throughout
trade_executor.py and trading/__init__.py but its defining module is not under
src; its members follow spec §3 (`Order.status ∈ PENDING, PARTIALLY_FILLED,
FILLED, REJECTED, CANCELLED, FAILED`). -/
inductive OrderStatus where
  | PENDING
  | PARTIALLY_FILLED
  | FILLED
  | REJECTED
  | CANCELLED
  | FAILED
deriving DecidableEq, Repr

/-- `BrokerType` enum from trading/__init__.py. -/
inductive BrokerType where
  | TINKOFF
  | MOEX
  | BINANCE
deriving DecidableEq, Repr

/-- Trading orders reuse the BUY/SELL/STOP_LOSS/TAKE_PROFIT order types. -/
abbrev OrderType := MoexBot.StateMgr.OrderType

/-- `Order` dataclass from trading/__init__.py. -/
structure Order where
  order_id : String
  ticker : String
  order_type : OrderType
  price : ℚ
  quantity : ℤ
  timestamp : ℕ
  status : OrderStatus := OrderStatus.PENDING
  filled_quantity : ℤ := 0
  avg_fill_price : Option ℚ := none
  reason : Option String := none
deriving DecidableEq, Repr

/-- `ExecutionReport` dataclass from trading/__init__.py. -/
structure ExecutionReport where
  order_id : String
  execution_time : ℕ
  filled_quantity : ℤ
  fill_price : ℚ
  commission : ℚ
  remaining_quantity : ℤ
deriving DecidableEq, Repr

/-- The configuration fields `TradeExecutor` reads: the tracked tickers, the
broker selected from `config['api_source']`, and the optional
`config.get('slippage', 0.001)`. -/
structure ExecConfig where
  tickers : List String
  broker_type : BrokerType
  slippage : Option ℚ := none
deriving Repr

/-- Mutable executor state: the `_active_orders` dict and `_order_counter`. -/
structure ExecState where
  active_orders : Dict Order := []
  order_counter : ℕ := 0
deriving Repr

/-- `TradeExecutor._apply_slippage`: `price * (1 + slippage)` with the
configured slippage defaulting to 0.001 — the same formula for every order. -/
def apply_slippage (cfg : ExecConfig) (price : ℚ) : ℚ :=
  price * (1 + cfg.slippage.getD 0.001)

/-- The `price` field of the payload `_execute_tinkoff_order` sends to the
venue for an order. -/
def tinkoff_payload_price (cfg : ExecConfig) (order : Order) : ℚ :=
  apply_slippage cfg order.price

/-- `TradeExecutor._validate_order`. -/
def validate_order (cfg : ExecConfig) (order : Order) : Bool :=
  if order.quantity ≤ 0 then false
  else if order.price ≤ 0 then false
  else if ¬ cfg.tickers.contains order.ticker then false
  else true

/-- `TradeExecutor._generate_order_id`: date-prefixed monotone counter
(`today` stands for `datetime.now().strftime` of the current date). -/
def generate_order_id (today : String) (st : ExecState) : ExecState × String :=
  ({ st with order_counter := st.order_counter + 1 },
   today ++ "_" ++ toString (st.order_counter + 1))

/-- `TradeExecutor._register_order`: fills in a generated id when the order id
is falsy, marks the order PENDING and stores it in `_active_orders`. -/
def register_order (today : String) (st : ExecState) (order : Order) :
    ExecState × Order :=
  let idPair :=
    if order.order_id = "" then generate_order_id today st else (st, order.order_id)
  let order := { order with order_id := idPair.2, status := OrderStatus.PENDING }
  ({ idPair.1 with active_orders := dictSet idPair.1.active_orders order.order_id order },
   order)

/-- The argument `_update_order_status` receives: either an `ExecutionReport`
(normal path) or the bare `OrderStatus.FAILED` that `execute_order`'s
exception handler passes. -/
inductive UpdateStatusArg where
  | report (r : ExecutionReport)
  | status (s : OrderStatus)

/-- `TradeExecutor._update_order_status`. Accessing `report.order_id` on a bare
`OrderStatus` member — which is what the handler in `execute_order` passes —
raises `AttributeError` in Python. -/
def update_order_status (st : ExecState) : UpdateStatusArg → Except PyExc ExecState
  | UpdateStatusArg.status _ =>
    Except.error (PyExc.attributeError "OrderStatus object has no attribute order_id")
  | UpdateStatusArg.report report =>
    match dictFind? st.active_orders report.order_id with
    | none => Except.ok st
    | some order =>
      let newStatus :=
        if report.remaining_quantity = 0 then OrderStatus.FILLED
        else if report.filled_quantity > 0 then OrderStatus.PARTIALLY_FILLED
        else OrderStatus.REJECTED
      Except.ok { st with
        active_orders := dictSet st.active_orders report.order_id
          { order with
            status := newStatus,
            filled_quantity := report.filled_quantity,
            avg_fill_price := some report.fill_price } }

/-- `TradeExecutor._execute_moex_order`: the simulated MOEX venue fully fills
the order at its own price with zero commission. -/
def moex_order_report (order : Order) : ExecutionReport :=
  { order_id := order.order_id, execution_time := 0,
    filled_quantity := order.quantity, fill_price := order.price,
    commission := 0, remaining_quantity := 0 }

/-- `TradeExecutor.execute_order`. The `venue` parameter stands for the
network-bound `_execute_tinkoff_order` call; the MOEX path is the pure
simulation above. Returns the post-call executor state together with the
normal or exceptional outcome; mutations made before an exception persist.
The `except` handler calls `_update_order_status(OrderStatus.FAILED)`, which
itself raises `AttributeError`, so the handler's `raise TradeError` line is
never reached. -/
def execute_order (cfg : ExecConfig) (venue : Order → Except PyExc ExecutionReport)
    (today : String) (st : ExecState) (order : Order) :
    ExecState × Except PyExc ExecutionReport :=
  let attempt : ExecState × Except PyExc ExecutionReport :=
    if ¬ validate_order cfg order then
      (st, Except.error (PyExc.tradeError "Invalid order parameters"))
    else
      let regPair := register_order today st order
      let venueResult :=
        match cfg.broker_type with
        | BrokerType.TINKOFF => venue regPair.2
        | BrokerType.MOEX => Except.ok (moex_order_report regPair.2)
        | BrokerType.BINANCE => Except.error (PyExc.tradeError "Unsupported broker")
      match venueResult with
      | Except.error e => (regPair.1, Except.error e)
      | Except.ok report =>
        match update_order_status regPair.1 (UpdateStatusArg.report report) with
        | Except.error e => (regPair.1, Except.error e)
        | Except.ok st2 => (st2, Except.ok report)
  match attempt with
  | (st', Except.ok report) => (st', Except.ok report)
  | (st', Except.error _) =>
    match update_order_status st' (UpdateStatusArg.status OrderStatus.FAILED) with
    | Except.error handlerExc => (st', Except.error handlerExc)
    | Except.ok st2 => (st2, Except.error (PyExc.tradeError "Execution failed"))

/-- The flattening order `close_all_positions` synthesizes for an active
order: opposite side, unfilled remainder, latest observable market price. -/
def close_order_for (last_price : String → ℚ) (order : Order) : Order :=
  { order_id := "close_" ++ order.order_id
    ticker := order.ticker
    order_type := if order.order_type = StateMgr.OrderType.BUY
      then StateMgr.OrderType.SELL else StateMgr.OrderType.BUY
    price := last_price order.ticker
    quantity := order.quantity - order.filled_quantity
    timestamp := 0 }

/-- The loop of `TradeExecutor.close_all_positions`, with CPython dict
iterator semantics: each advance of the iterator over `_active_orders.values()`
first compares the dict's current size with its size at iterator creation and
raises `RuntimeError` on a mismatch. `TradeError` from flattening one order is
caught, logged and skipped; any other exception propagates. -/
def close_all_loop (cfg : ExecConfig) (venue : Order → Except PyExc ExecutionReport)
    (today : String) (last_price : String → ℚ) (size0 : ℕ) :
    List (String × Order) → ExecState → List ExecutionReport →
    Except PyExc (List ExecutionReport)
  | items, st, reports =>
    if st.active_orders.length ≠ size0 then
      Except.error (PyExc.runtimeError "dictionary changed size during iteration")
    else
      match items with
      | [] => Except.ok reports.reverse
      | (_, order) :: rest =>
        if order.status = OrderStatus.PENDING ∨ order.status = OrderStatus.PARTIALLY_FILLED
        then
          match execute_order cfg venue today st (close_order_for last_price order) with
          | (st', Except.ok report) =>
            close_all_loop cfg venue today last_price size0 rest st' (report :: reports)
          | (st', Except.error (PyExc.tradeError _)) =>
            close_all_loop cfg venue today last_price size0 rest st' reports
          | (_, Except.error e) => Except.error e
        else close_all_loop cfg venue today last_price size0 rest st reports

/-- `TradeExecutor.close_all_positions`. -/
def close_all_positions (cfg : ExecConfig) (venue : Order → Except PyExc ExecutionReport)
    (today : String) (last_price : String → ℚ) (st : ExecState) :
    Except PyExc (List ExecutionReport) :=
  close_all_loop cfg venue today last_price st.active_orders.length st.active_orders st []

/-- Tinkoff-broker configuration with the default 0.001 slippage configured. -/
def tinkoffCfg : ExecConfig :=
  { tickers := ["X"], broker_type := BrokerType.TINKOFF, slippage := some 0.001 }

/-- MOEX-broker configuration tracking instruments "A" and "B". -/
def moexCfg : ExecConfig :=
  { tickers := ["A", "B"], broker_type := BrokerType.MOEX }

/-- A SELL limit order at price 100. -/
def sellOrderX : Order :=
  { order_id := "s1", ticker := "X", order_type := StateMgr.OrderType.SELL,
    price := 100, quantity := 1, timestamp := 0 }

/-- A BUY limit order at price 100, same price as `sellOrderX`. -/
def buyOrderX : Order :=
  { order_id := "b1", ticker := "X", order_type := StateMgr.OrderType.BUY,
    price := 100, quantity := 1, timestamp := 0 }

/-- A venue call that fails, as on a non-200 Tinkoff response. -/
def failingVenue : Order → Except PyExc ExecutionReport :=
  fun _ => Except.error (PyExc.tradeError "Tinkoff API error: venue rejected")

/-- PENDING BUY order on instrument "A", quantity 2, nothing filled. -/
def pendingA : Order :=
  { order_id := "o1", ticker := "A", order_type := StateMgr.OrderType.BUY,
    price := 100, quantity := 2, timestamp := 0 }

/-- PENDING BUY order on instrument "B", quantity 3, nothing filled. -/
def pendingB : Order :=
  { order_id := "o2", ticker := "B", order_type := StateMgr.OrderType.BUY,
    price := 50, quantity := 3, timestamp := 0 }

/-- Executor state holding the two PENDING orders of the spec scenario. -/
def stTwoPending : ExecState :=
  { active_orders := [("o1", pendingA), ("o2", pendingB)] }

end MoexBot.TradeExec

namespace MoexBot.TradeExec

/-- Claim C3 counterexample: for a SELL order at price 100 with slippage 0.001
the price sent to the venue is 100.1 = 100 × (1 + 0.001) — inflated, not the
deflated 100 × (1 − 0.001) = 99.9 the claim requires for sells. -/
theorem sell_payload_price_not_deflated :
    tinkoff_payload_price tinkoffCfg sellOrderX = 100.1 ∧
    tinkoff_payload_price tinkoffCfg sellOrderX ≠ 100 * (1 - 0.001) := by
  constructor
  · norm_num [tinkoff_payload_price, apply_slippage, tinkoffCfg, sellOrderX]
  · norm_num [tinkoff_payload_price, apply_slippage, tinkoffCfg, sellOrderX]

/-- Claim C3 amended: the slippage adjustment is `price × (1 + slippage)` for
every order regardless of side — inflated for buys (unfavorable) and equally
inflated for sells (favorable). Two orders at the same price get the same
venue price whatever their sides. -/
theorem payload_price_ignores_side (cfg : ExecConfig) (o₁ o₂ : Order)
    (hprice : o₁.price = o₂.price) :
    tinkoff_payload_price cfg o₁ = o₁.price * (1 + cfg.slippage.getD 0.001) ∧
    tinkoff_payload_price cfg o₁ = tinkoff_payload_price cfg o₂ := by
  constructor
  · rfl
  · unfold tinkoff_payload_price apply_slippage
    rw [hprice]

/-- Witness for the amended C3 at a BUY and a SELL order of equal price. -/
theorem payload_price_ignores_side_witness :
    sellOrderX.price = buyOrderX.price ∧
    (tinkoff_payload_price tinkoffCfg sellOrderX
        = sellOrderX.price * (1 + tinkoffCfg.slippage.getD 0.001) ∧
      tinkoff_payload_price tinkoffCfg sellOrderX = tinkoff_payload_price tinkoffCfg buyOrderX) :=
  ⟨rfl, payload_price_ignores_side tinkoffCfg sellOrderX buyOrderX rfl⟩

/-- Claim C4: when the venue call fails, `execute_order` does NOT raise
`TradeError` — its exception handler calls
`_update_order_status(OrderStatus.FAILED)`, which evaluates `report.order_id`
on an enum member and raises `AttributeError`; that `AttributeError` is what
escapes to the caller (the same happens for a validation failure). -/
theorem execute_order_failure_escapes_attribute_error :
    (execute_order tinkoffCfg failingVenue "20260101" {} buyOrderX).2
      = Except.error (PyExc.attributeError "OrderStatus object has no attribute order_id") ∧
    (execute_order tinkoffCfg failingVenue "20260101" {}
        { buyOrderX with quantity := 0 }).2
      = Except.error (PyExc.attributeError "OrderStatus object has no attribute order_id") := by
  constructor <;> rfl

/-- Claim C6: with two PENDING orders on "A" and "B" and the (pure) MOEX
venue, `close_all_positions` does not return two reports: flattening the first
order registers the synthesized close order in `_active_orders` while that
same dict is being iterated, so the next iterator step raises `RuntimeError`
and instrument "B" is never attempted. -/
theorem close_all_two_pending_raises_runtime_error :
    close_all_positions moexCfg failingVenue "20260101" (fun _ => 100) stTwoPending
      = Except.error (PyExc.runtimeError "dictionary changed size during iteration") := by
  rfl

end MoexBot.TradeExec

/-! ## src/scr/utils/helpers.py -/

namespace MoexBot.Retry

/-- What a call of the Python wrapper produced by `async_retry` can do:
return a value (`ret (some v)`), fall off the loop and return `None`
(`ret none`, which happens when `max_retries = 0`), or raise (`raise e`). -/
inductive RetryOutcome (E A : Type) where
  | ret (a : Option A)
  | retryRaise (e : E)
deriving DecidableEq, Repr

/-- The `for attempt in range(1, max_retries + 1)` loop of `async_retry`,
walking the list of attempt numbers and also counting the attempts actually
made. `op n` is the outcome of the wrapped operation on attempt `n` (every
exception is retryable here, matching the `exceptions=(Exception,)` default);
on a failed attempt equal to `max_retries` the bare `raise` re-raises that
attempt's own exception unchanged. The inter-attempt sleeps are elided. -/
def async_retry_go {E A : Type} (op : ℕ → Except E A) (max_retries : ℕ) :
    List ℕ → RetryOutcome E A × ℕ
  | [] => (RetryOutcome.ret none, 0)
  | attempt :: rest =>
    match op attempt with
    | Except.ok v => (RetryOutcome.ret (some v), 1)
    | Except.error e =>
      if attempt = max_retries then (RetryOutcome.retryRaise e, 1)
      else
        ((async_retry_go op max_retries rest).1, (async_retry_go op max_retries rest).2 + 1)

/-- `async_retry(max_retries)` applied to an operation: runs the attempt loop
over `range(1, max_retries + 1)`. -/
def async_retry {E A : Type} (op : ℕ → Except E A) (max_retries : ℕ) :
    RetryOutcome E A × ℕ :=
  async_retry_go op max_retries (List.range' 1 max_retries)

theorem async_retry_go_all_fail {E A : Type} (op : ℕ → Except E A) (errs : ℕ → E)
    (max_retries : ℕ) (hfail : ∀ n, op n = Except.error (errs n)) :
    ∀ (n a : ℕ), 0 < n → a + n = max_retries + 1 →
      async_retry_go op max_retries (List.range' a n)
        = (RetryOutcome.retryRaise (errs max_retries), n) := by
  intro n
  induction n with
  | zero => intro a h0 _; exact absurd h0 (lt_irrefl 0)
  | succ m ih =>
    intro a h0 hsum
    rw [List.range'_succ]
    rw [async_retry_go, hfail a]
    cases m with
    | zero =>
      have ha : a = max_retries := by omega
      subst ha
      simp
    | succ k =>
      have hne : a ≠ max_retries := by omega
      simp [hne, ih (a + 1) (Nat.succ_pos k) (by omega)]

end MoexBot.Retry

namespace MoexBot.Retry

/-- Claim C8: an operation that fails on every attempt is attempted exactly
`max_retries` times (for any `max_retries ≥ 1`), and the wrapper then
re-raises the last attempt's exception itself — same value, no substitute
error. -/
theorem async_retry_exhausts_and_reraises {E A : Type} (op : ℕ → Except E A)
    (errs : ℕ → E) (max_retries : ℕ) (hmr : 1 ≤ max_retries)
    (hfail : ∀ n, op n = Except.error (errs n)) :
    async_retry op max_retries = (RetryOutcome.retryRaise (errs max_retries), max_retries) := by
  unfold async_retry
  exact async_retry_go_all_fail op errs max_retries hfail max_retries 1
    (by omega) (by omega)

/-- Witness for C8: the always-failing operation returning its attempt number
as the error, with `max_retries = 3`: three attempts, then attempt 3's own
error is re-raised. -/
theorem async_retry_exhausts_and_reraises_witness :
    (1 ≤ 3 ∧ ∀ n : ℕ, (Except.error n : Except ℕ Unit) = Except.error n) ∧
    async_retry (fun n => (Except.error n : Except ℕ Unit)) 3
      = (RetryOutcome.retryRaise 3, 3) :=
  ⟨⟨by norm_num, fun _ => rfl⟩,
   async_retry_exhausts_and_reraises (fun n => (Except.error n : Except ℕ Unit))
     (fun n => n) 3 (by norm_num) (fun _ => rfl)⟩

end MoexBot.Retry
